import Mathlib

/-!
Shallow embedding of src/interesting_blaseball_games/view.py.

The module under verification selects display columns from a dataframe of
game records, builds a one-line table description, transforms the rows
(truncation, 1-based re-indexing, underdog odds annotation, odds-column
stripping, postseason glyphs, emoji decoding, stringification) and renders
them either as an interactive table (RichView) or as a Markdown table
(MarkdownView).

Modelling conventions:
- Python cell values are the PyVal inductive; floats (the game odds) are
  modelled as exact rationals.  The concrete odds used in the theorems
  below (37/100 and 1/200) are values at which the float products computed
  by view.py (100*x) are exact, so the rational model agrees with the
  float code there.
- A pandas DataFrame is a Frame: an ordered column list plus rows stored
  as association lists in column order.
- Fallible steps return Except String; the error string names the Python
  exception that the corresponding statement raises ("KeyError",
  "TypeError", "ValueError", "NameError"), and "SystemExit" marks the
  sys.exit(1) call reached through the except KeyError handler of the
  underdog annotation step.
-/

deriving instance DecidableEq for Except

/-- A Python runtime value, as far as view.py manipulates cells. -/
inductive PyVal where
  | none
  | bool (b : Bool)
  | int (n : Int)
  | str (s : String)
  | rat (q : Rat)
deriving DecidableEq, Repr

/-- One dataframe row: cells keyed by column name, in column order. -/
abbrev Row := List (String × PyVal)

/-- A pandas DataFrame: ordered columns plus rows keyed by column name. -/
structure Frame where
  cols : List String
  rows : List Row
deriving DecidableEq, Repr

/-- The subset of the parsed CLI options object that view.py reads. -/
structure Options where
  win_loss : Bool
  home_away : Bool
  winning_pitcher : Bool
  losing_pitcher : Bool
  home_pitcher : Bool
  away_pitcher : Bool
  name_style : String
deriving DecidableEq, Repr

/-- view.py line 13. -/
def NAMESTYLE_CHOICES : List String := ["long", "short", "emoji"]

/-- Modelled from the spec: REASON2FUNCTION lives in game_data.py, which is
not among the sources; the spec (sections 3 and 4.2 and the glossary) fixes
its keys as the six filter categories.  view.py uses it only for the
wording of the unrecognized-category error message (line 70). -/
def REASON2FUNCTION_keys : List String :=
  ["blowout", "shutout", "shame", "underdog", "maxedout", "defensive"]

/-- View.assemble_column_headers (view.py lines 94-199), transcribed
branch by branch.  Note that the source performs no validation: when
neither orientation flag is set it falls through both branches, and when
name_style is unrecognized the team-name key is silently omitted while the
display label is still appended. -/
def assemble_column_headers (options : Options) : List String × List String :=
  let column_names := ["season", "day", "isPostseason"]
  let nice_column_names := ["Sea", "Day", "Post"]
  if options.win_loss then
    let column_names := column_names ++
      (if options.winning_pitcher then ["winningPitcherName"] else [])
    let nice_column_names := nice_column_names ++
      (if options.winning_pitcher then ["WP"] else [])
    let column_names := column_names ++
      (if options.name_style = "long" then ["winningTeamName"]
       else if options.name_style = "short" then ["winningTeamNickname"]
       else if options.name_style = "emoji" then ["winningTeamEmoji"]
       else [])
    let nice_column_names := nice_column_names ++ ["Winner"]
    let column_names := column_names ++ ["winningOdds"]
    let nice_column_names := nice_column_names ++ ["W Odds"]
    let column_names := column_names ++ ["winningLosingScore"]
    let nice_column_names := nice_column_names ++ ["Score"]
    let column_names := column_names ++ ["losingOdds"]
    let nice_column_names := nice_column_names ++ ["L Odds"]
    let column_names := column_names ++
      (if options.name_style = "long" then ["losingTeamName"]
       else if options.name_style = "short" then ["losingTeamNickname"]
       else if options.name_style = "emoji" then ["losingTeamEmoji"]
       else [])
    let nice_column_names := nice_column_names ++ ["Loser"]
    let column_names := column_names ++
      (if options.losing_pitcher then ["losingPitcherName"] else [])
    let nice_column_names := nice_column_names ++
      (if options.losing_pitcher then ["LP"] else [])
    (column_names, nice_column_names)
  else if options.home_away then
    let column_names := column_names ++
      (if options.home_pitcher then ["homePitcherName"] else [])
    let nice_column_names := nice_column_names ++
      (if options.home_pitcher then ["Home P"] else [])
    let column_names := column_names ++
      (if options.name_style = "long" then ["homeTeamName"]
       else if options.name_style = "short" then ["homeTeamNickname"]
       else if options.name_style = "emoji" then ["homeTeamEmoji"]
       else [])
    let nice_column_names := nice_column_names ++ ["Home"]
    let column_names := column_names ++ ["homeOdds"]
    let nice_column_names := nice_column_names ++ ["A Odds"]
    let column_names := column_names ++ ["homeAwayScore"]
    let nice_column_names := nice_column_names ++ ["Score"]
    let column_names := column_names ++ ["awayOdds"]
    let nice_column_names := nice_column_names ++ ["A Odds"]
    let column_names := column_names ++
      (if options.name_style = "long" then ["awayTeamName"]
       else if options.name_style = "short" then ["awayTeamNickname"]
       else if options.name_style = "emoji" then ["awayTeamEmoji"]
       else [])
    let nice_column_names := nice_column_names ++ ["Away"]
    let column_names := column_names ++
      (if options.away_pitcher then ["awayPitcherName"] else [])
    let nice_column_names := nice_column_names ++
      (if options.away_pitcher then ["Away P"] else [])
    (column_names, nice_column_names)
  else
    (column_names, nice_column_names)

/-- The common tail appended by View.table_description after the category
phrase (view.py lines 72-91): scope phrase, postseason note, team phrase,
1-indexing footer.  ALLTEAMS is the roster returned by the external
get_league_division_team_data collaborator (util.py, not among the
sources), taken here as an explicit parameter. -/
def desc_rest (ALLTEAMS : List String) (season : List String)
    (postseason : Bool) (team : List String) : String :=
  (if "all" ∈ season then "for all time "
   else if season.length = 1 then "for season " ++ String.join season ++ " "
   else "for seasons " ++ String.intercalate ", " season ++ " ")
  ++ (if postseason then "(postseason only) " else "")
  ++ (if team.length = 1 then "for team " ++ String.join team
      else if (ALLTEAMS.filter (fun t => decide (t ∉ team))).length = 0 then
        "for all teams"
      else "for teams " ++ String.intercalate ", " team)
  ++ " (note: all days and seasons displayed are 1-indexed)"

/-- View.table_description (view.py lines 51-92). -/
def table_description (ALLTEAMS : List String) (reason : String)
    (season : List String) (postseason : Bool) (team : List String) :
    Except String String :=
  if reason = "blowout" then
    .ok ("Blowout games (games with high scores and high run differentials) "
      ++ desc_rest ALLTEAMS season postseason team)
  else if reason = "shutout" then
    .ok ("Shutout games (games where the loser had zero runs) "
      ++ desc_rest ALLTEAMS season postseason team)
  else if reason = "shame" then
    .ok ("Shame games (games where the loser was shamed) "
      ++ desc_rest ALLTEAMS season postseason team)
  else if reason = "underdog" then
    .ok ("Underdog games (games where the underdog won with large run differential) "
      ++ desc_rest ALLTEAMS season postseason team)
  else if reason = "maxedout" then
    .ok ("Maxed out games (high-scoring one-run games) "
      ++ desc_rest ALLTEAMS season postseason team)
  else if reason = "defensive" then
    .ok ("Defensive games (low-scoring one-run games) "
      ++ desc_rest ALLTEAMS season postseason team)
  else
    .error ("Error: reason not recognized. Valid reasons: "
      ++ String.intercalate ", " REASON2FUNCTION_keys)

/-- Spec-side tail of the Description Builder, written from the words of
the spec (section 4.2) and of claim C5: scope phrase with the selector
being the literal token list consisting of "all" alone, singular or
comma-joined plural season phrase, postseason note, team phrase with the
full-roster test stated as set equality regardless of order, fixed
1-indexing footer. -/
def spec_rest (ALLTEAMS : List String) (season : List String)
    (postseason : Bool) (team : List String) : String :=
  (if season = ["all"] then "for all time "
   else if season.length = 1 then "for season " ++ season.headI ++ " "
   else "for seasons " ++ String.intercalate ", " season ++ " ")
  ++ (if postseason then "(postseason only) " else "")
  ++ (if team.length = 1 then "for team " ++ team.headI
      else if team.toFinset = ALLTEAMS.toFinset then "for all teams"
      else "for teams " ++ String.intercalate ", " team)
  ++ " (note: all days and seasons displayed are 1-indexed)"

/-- Spec-side Description Builder, written from the words of claim C5:
category phrase first, then the scope, postseason, team phrases and the
footer of spec_rest. -/
def table_description_spec (ALLTEAMS : List String) (reason : String)
    (season : List String) (postseason : Bool) (team : List String) : String :=
  (if reason = "blowout" then
    "Blowout games (games with high scores and high run differentials) "
   else if reason = "shutout" then
    "Shutout games (games where the loser had zero runs) "
   else if reason = "shame" then
    "Shame games (games where the loser was shamed) "
   else if reason = "underdog" then
    "Underdog games (games where the underdog won with large run differential) "
   else if reason = "maxedout" then
    "Maxed out games (high-scoring one-run games) "
   else if reason = "defensive" then
    "Defensive games (low-scoring one-run games) "
   else "")
  ++ spec_rest ALLTEAMS season postseason team

example :
    table_description ["a", "b"] "blowout" ["3"] false ["a"]
      = .ok ("Blowout games (games with high scores and high run differentials) "
        ++ "for season 3 for team a (note: all days and seasons displayed are 1-indexed)") := by
  decide

/-- Restrict one row to the requested columns, in request order. -/
def restrictRow (headers : List String) (row : Row) : Row :=
  headers.filterMap (fun h => (row.lookup h).map (fun v => (h, v)))

/-- df[headers]: column selection, raising KeyError when a requested
column is absent from the frame (view.py line 223/329). -/
def selectColumns (headers : List String) (df : Frame) : Except String Frame :=
  if ∀ h ∈ headers, h ∈ df.cols then
    .ok ⟨headers, df.rows.map (restrictRow headers)⟩
  else
    .error "KeyError"

/-- plusone = lambda x: x + 1 (view.py line 227/333): Python addition on
the cell types that can occur; non-numeric cells raise TypeError. -/
def plusone : PyVal → Except String PyVal
  | .int n => .ok (.int (n + 1))
  | .rat q => .ok (.rat (q + 1))
  | .bool b => .ok (.int ((if b then 1 else 0) + 1))
  | _ => .error "TypeError"

/-- Apply f to the cell of column c within one row. -/
def applyRowCol (c : String) (f : PyVal → Except String PyVal) : Row → Except String Row
  | [] => .ok []
  | (k, v) :: rest => do
    let v2 ← if k = c then f v else .ok v
    let rest2 ← applyRowCol c f rest
    .ok ((k, v2) :: rest2)

/-- Apply f to the cell of column c in every row, first failure first. -/
def applyRows (c : String) (f : PyVal → Except String PyVal) :
    List Row → Except String (List Row)
  | [] => .ok []
  | r :: rest => do
    let r2 ← applyRowCol c f r
    let rest2 ← applyRows c f rest
    .ok (r2 :: rest2)

/-- cut[c].apply(f) followed by cut.assign with the new column: raises
KeyError when the column is absent, otherwise rewrites each cell of the
column with f (used at view.py lines 228-230, 268-269, 276-277 and their
MarkdownView twins). -/
def applyColumn (c : String) (f : PyVal → Except String PyVal) (df : Frame) :
    Except String Frame :=
  if c ∈ df.cols then do
    let rows2 ← applyRows c f df.rows
    .ok ⟨df.cols, rows2⟩
  else
    .error "KeyError"

/-- cut.drop(labels, axis=1) (view.py line 260/367): pandas raises
KeyError when any label is absent (errors defaults to raise). -/
def dropColumns (labels : List String) (df : Frame) : Except String Frame :=
  if ∀ l ∈ labels, l ∈ df.cols then
    .ok ⟨df.cols.filter (fun c => decide (c ∉ labels)),
         df.rows.map (fun r => r.filter (fun kv => decide (kv.1 ∉ labels)))⟩
  else
    .error "KeyError"

/-- Occurrence of pat as a contiguous run inside a character list. -/
def subOccurs (pat : List Char) : List Char → Bool
  | [] => pat.isEmpty
  | c :: rest => pat.isPrefixOf (c :: rest) || subOccurs pat rest

/-- The Python membership test of the string "Odds" in j used to prune the header lists
(view.py lines 263-264 and 370-371). -/
def containsOdds (j : String) : Bool :=
  subOccurs "Odds".data j.data

/-- The Python test comparing column_header[-5:] with "Emoji" (view.py lines 275, 292,
382, 403): since the compared literal has five characters, the slice test
is exactly a suffix test. -/
def endsInEmoji (s : String) : Bool :=
  "Emoji".data.isSuffixOf s.data

/-- Python str() on the cell values occurring in these tables.  No rat
cell survives to the stringification step in any modelled pipeline (the
odds columns are dropped beforehand), so the rat branch is never
exercised by the claims; Python float repr is not modelled. -/
def pyStr : PyVal → String
  | .none => "None"
  | .bool true => "True"
  | .bool false => "False"
  | .int n => toString n
  | .str s => s
  | .rat q => toString q

/-- Python 3 round() to an integer: round half to even. -/
def pyRound (q : Rat) : Int :=
  if q - (⌊q⌋ : Rat) < 1/2 then ⌊q⌋
  else if 1/2 < q - (⌊q⌋ : Rat) then ⌊q⌋ + 1
  else if ⌊q⌋ % 2 = 0 then ⌊q⌋ else ⌊q⌋ + 1

/-- round(100*row[oddslabel]) (view.py line 251/357): TypeError when the
odds cell is not numeric. -/
def pyRound100 : PyVal → Except String Int
  | .rat q => .ok (pyRound (100 * q))
  | .int n => .ok (100 * n)
  | .bool b => .ok (if b then 100 else 0)
  | _ => .error "TypeError"

/-- addodds = lambda row: "%s (%d%%)" % (row[namelabel], round(100*row[oddslabel]))
(view.py line 251/357). -/
def addodds (namev oddsv : PyVal) : Except String PyVal := do
  let pct ← pyRound100 oddsv
  .ok (.str (pyStr namev ++ " (" ++ toString pct ++ "%)"))

/-- Overwrite the cell of column k within one row. -/
def updateRowVal (k : String) (v : PyVal) (row : Row) : Row :=
  row.map (fun kv => if kv.1 = k then (k, v) else kv)

/-- The addodds application to one row of the two-column sub-frame
cut[[namelabel, oddslabel]].  A missing cell is a KeyError, which the
source catches and turns into sys.exit(1), modelled as SystemExit. -/
def addOddsRow (namelabel oddslabel : String) (row : Row) : Except String Row :=
  match row.lookup namelabel, row.lookup oddslabel with
  | some nv, some ov => do
    let newv ← addodds nv ov
    .ok (updateRowVal namelabel newv row)
  | _, _ => .error "SystemExit"

def addOddsRows (namelabel oddslabel : String) : List Row → Except String (List Row)
  | [] => .ok []
  | r :: rest => do
    let r2 ← addOddsRow namelabel oddslabel r
    let rest2 ← addOddsRows namelabel oddslabel rest
    .ok (r2 :: rest2)

/-- Underdog annotation for one side (view.py lines 250-257 and 356-363):
cut[namelabel] = cut[[namelabel, oddslabel]].apply(addodds, axis=1).
The sub-frame selection raises KeyError when a column is missing; the
surrounding except KeyError handler prints the frame and calls
sys.exit(1), modelled as the SystemExit error.  TypeError raised by
round() on a non-numeric odds cell is not caught and propagates. -/
def tryAddOdds (namelabel oddslabel : String) (df : Frame) : Except String Frame :=
  if namelabel ∈ df.cols ∧ oddslabel ∈ df.cols then
    match addOddsRows namelabel oddslabel df.rows with
    | .ok rows2 => .ok ⟨df.cols, rows2⟩
    | .error e => .error e
  else
    .error "SystemExit"

/-- The for namelabel, oddslabel in zip(namelabels, oddslabels) loop. -/
def foldOddsPairs : List (String × String) → Frame → Except String Frame
  | [], c => .ok c
  | p :: rest, c => do
    let c2 ← tryAddOdds p.1 p.2 c
    foldOddsPairs rest c2

/-- The namelabels if-chain (view.py lines 238-243 and 344-349), checked
in source order short, long, emoji.  An unrecognized style leaves the
Python variable unbound; the NameError surfaces only where namelabels is
used, namely inside the underdog branch. -/
def namelabelsFor (name_style : String) (pre : List String) : Option (List String) :=
  if name_style = "short" then some (pre.map (fun j => j ++ "TeamNickname"))
  else if name_style = "long" then some (pre.map (fun j => j ++ "TeamName"))
  else if name_style = "emoji" then some (pre.map (fun j => j ++ "TeamEmoji"))
  else none

/-- Value of one hexadecimal digit. -/
def hexDigitVal (c : Char) : Option Nat :=
  if '0' ≤ c ∧ c ≤ '9' then some (c.toNat - '0'.toNat)
  else if 'a' ≤ c ∧ c ≤ 'f' then some (c.toNat - 'a'.toNat + 10)
  else if 'A' ≤ c ∧ c ≤ 'F' then some (c.toNat - 'A'.toNat + 10)
  else none

def parseHexGo : List Char → Nat → Except String Nat
  | [], acc => .ok acc
  | c :: rest, acc =>
    match hexDigitVal c with
    | some d => parseHexGo rest (16 * acc + d)
    | _ => .error "ValueError"

/-- int(x, 16) on the plain hexadecimal code-point strings stored in the
Emoji columns (signs, whitespace and 0x prefixes do not occur in the data
and are not modelled); an invalid literal raises ValueError. -/
def parseHex16 (s : String) : Except String Nat :=
  if s.data = [] then .error "ValueError" else parseHexGo s.data 0

/-- emoji_lambda = lambda x: chr(int(x, 16)) (view.py line 274/381).
Python chr rejects code points at or above 0x110000; Lean Char also
excludes the surrogate range, which does not occur in the data. -/
def decodeEmoji : PyVal → Except String PyVal
  | .str s => do
    let n ← parseHex16 s
    if n < 55296 ∨ (57343 < n ∧ n < 1114112) then
      .ok (.str (String.mk [Char.ofNat n]))
    else
      .error "ValueError"
  | _ => .error "TypeError"

/-- The for column_header in self.column_headers loop that decodes every
column whose key ends in "Emoji" (view.py lines 273-277 and 380-384);
it runs over the already pruned header list. -/
def emojiLoop : List String → Frame → Except String Frame
  | [], c => .ok c
  | h :: rest, c =>
    if endsInEmoji h then do
      let c2 ← applyColumn h decodeEmoji c
      emojiLoop rest c2
    else
      emojiLoop rest c

/-- cut.applymap(str) (view.py line 280/387). -/
def applymapStr (df : Frame) : Frame :=
  ⟨df.cols, df.rows.map (fun r => r.map (fun kv => (kv.1, PyVal.str (pyStr kv.2))))⟩

/-- postseason_lambda of RichView (view.py line 267):
a lambda mapping c to a single space when c is False and to "Y"
otherwise.  The identity test c is False is modelled as equality with the
bool false constructor, since the Python False object is a singleton. -/
def richGlyph (c : PyVal) : String := if c = .bool false then " " else "Y"

/-- postseason_lambda of MarkdownView (view.py line 374):
a lambda mapping c to the empty string when c is False and to "*"
otherwise. -/
def mdGlyph (c : PyVal) : String := if c = .bool false then "" else "*"

/-- The Row Transformer (spec section 4.3): the transformation portion
shared by RichView._render_table and MarkdownView._render_table,
abstracted over the postseason glyph function in which the two methods
differ.  Returns the transformed frame together with the pruned
column_headers and nice_column_headers lists (the source mutates the
instance attributes; the pruned lists are returned instead). -/
def sharedTransform (glyph : PyVal → String)
    (column_headers nice_column_headers : List String) (nresults : Nat)
    (options : Options) (reason : String) (df : Frame) :
    Except String (Frame × List String × List String) := do
  let cut ← selectColumns column_headers df
  let cut : Frame := ⟨cut.cols, cut.rows.take (min df.rows.length nresults)⟩
  let cut ← applyColumn "season" plusone cut
  let cut ← applyColumn "day" plusone cut
  let pre := if options.win_loss then ["winning", "losing"] else ["home", "away"]
  let namelabels := namelabelsFor options.name_style pre
  let oddslabels := pre.map (fun j => j ++ "Odds")
  let cut ←
    if reason = "underdog" then
      match namelabels with
      | some nls => foldOddsPairs (nls.zip oddslabels) cut
      | _ => .error "NameError"
    else .ok cut
  let cut ← dropColumns oddslabels cut
  let column_headers := column_headers.filter (fun j => ! containsOdds j)
  let nice_column_headers := nice_column_headers.filter (fun j => ! containsOdds j)
  let cut ← applyColumn "isPostseason" (fun c => .ok (.str (glyph c))) cut
  let cut ← emojiLoop column_headers cut
  let cut := applymapStr cut
  .ok (cut, column_headers, nice_column_headers)

/-- The transformation portion of RichView._render_table (view.py lines
218-280), transcribed on its own with the RichView postseason lambda
inlined. -/
def rich_render_transform
    (column_headers nice_column_headers : List String) (nresults : Nat)
    (options : Options) (reason : String) (df : Frame) :
    Except String (Frame × List String × List String) := do
  let cut ← selectColumns column_headers df
  let cut : Frame := ⟨cut.cols, cut.rows.take (min df.rows.length nresults)⟩
  let cut ← applyColumn "season" plusone cut
  let cut ← applyColumn "day" plusone cut
  let pre := if options.win_loss then ["winning", "losing"] else ["home", "away"]
  let namelabels := namelabelsFor options.name_style pre
  let oddslabels := pre.map (fun j => j ++ "Odds")
  let cut ←
    if reason = "underdog" then
      match namelabels with
      | some nls => foldOddsPairs (nls.zip oddslabels) cut
      | _ => .error "NameError"
    else .ok cut
  let cut ← dropColumns oddslabels cut
  let column_headers := column_headers.filter (fun j => ! containsOdds j)
  let nice_column_headers := nice_column_headers.filter (fun j => ! containsOdds j)
  let cut ← applyColumn "isPostseason"
    (fun c => .ok (.str (if c = .bool false then " " else "Y"))) cut
  let cut ← emojiLoop column_headers cut
  let cut := applymapStr cut
  .ok (cut, column_headers, nice_column_headers)

/-- The transformation portion of MarkdownView._render_table (view.py
lines 324-387), transcribed on its own with the MarkdownView postseason
lambda inlined. -/
def markdown_render_transform
    (column_headers nice_column_headers : List String) (nresults : Nat)
    (options : Options) (reason : String) (df : Frame) :
    Except String (Frame × List String × List String) := do
  let cut ← selectColumns column_headers df
  let cut : Frame := ⟨cut.cols, cut.rows.take (min df.rows.length nresults)⟩
  let cut ← applyColumn "season" plusone cut
  let cut ← applyColumn "day" plusone cut
  let pre := if options.win_loss then ["winning", "losing"] else ["home", "away"]
  let namelabels := namelabelsFor options.name_style pre
  let oddslabels := pre.map (fun j => j ++ "Odds")
  let cut ←
    if reason = "underdog" then
      match namelabels with
      | some nls => foldOddsPairs (nls.zip oddslabels) cut
      | _ => .error "NameError"
    else .ok cut
  let cut ← dropColumns oddslabels cut
  let column_headers := column_headers.filter (fun j => ! containsOdds j)
  let nice_column_headers := nice_column_headers.filter (fun j => ! containsOdds j)
  let cut ← applyColumn "isPostseason"
    (fun c => .ok (.str (if c = .bool false then "" else "*"))) cut
  let cut ← emojiLoop column_headers cut
  let cut := applymapStr cut
  .ok (cut, column_headers, nice_column_headers)

/-- The per-column justify argument chosen by RichView._render_table when
building the grid (view.py lines 288-296): "right" and "center" are the
explicit justify arguments passed to add_column, "default" stands for the
call without a justify argument. -/
def richJustify (column_header : String) (name_style : String) : String :=
  if column_header = "losingScore" ∨ column_header = "awayScore" then "right"
  else if name_style = "emoji" ∧ endsInEmoji column_header then "center"
  else "default"

/-- One cell of the Markdown alignment/separator row (view.py lines
396-407).  Note the source appends "------ |" without a trailing space in
the default branch. -/
def mdSepCell (column_header : String) (name_style : String) : String :=
  if column_header = "losingScore" ∨ column_header = "awayScore" then "------: | "
  else if name_style = "emoji" ∧ endsInEmoji column_header then ":------: | "
  else "------ |"

/-- The cell loop of one Markdown data row (view.py lines 415-422):
isPostseason contributes no cell of its own; the day cell gets the
postseason glyph appended; every other cell is emitted as is.  fullRow is
the whole row, against which the isPostseason cell is looked up. -/
def mdRowGo (fullRow : Row) (acc : String) : List (String × PyVal) → Except String String
  | [] => .ok acc
  | (k, val) :: rest =>
    if k = "isPostseason" then mdRowGo fullRow acc rest
    else if k = "day" then
      match fullRow.lookup "isPostseason" with
      | some p => mdRowGo fullRow (acc ++ pyStr val ++ pyStr p ++ " | ") rest
      | _ => .error "KeyError"
    else mdRowGo fullRow (acc ++ pyStr val ++ " | ") rest

/-- One Markdown data row (view.py lines 414-422). -/
def mdTableRow (row : Row) : Except String String := mdRowGo row "| " row

/-- A win_loss configuration with long names and no pitcher columns. -/
def opts_wl_long : Options := ⟨true, false, false, false, false, false, "long"⟩

/-- One raw game record holding every column of the win_loss/long plan. -/
def row0 : Row :=
  [("season", .int 0), ("day", .int 3), ("isPostseason", .bool false),
   ("winningTeamName", .str "Crabs"), ("winningOdds", .rat (3/5)),
   ("winningLosingScore", .str "5-3"), ("losingOdds", .rat (2/5)),
   ("losingTeamName", .str "Sunbeams")]

/-- A one-row frame carrying the full set of raw columns. -/
def df0 : Frame :=
  ⟨["season", "day", "isPostseason", "winningTeamName", "winningOdds",
    "winningLosingScore", "losingOdds", "losingTeamName"], [row0]⟩

/-- The column plan of the View instance after a first render call has pruned the
odds entries in place (view.py lines 263-264). -/
def prunedHeaders : List String :=
  (assemble_column_headers opts_wl_long).1.filter (fun j => ! containsOdds j)

/-- The pruned display labels after a first render call. -/
def prunedNice : List String :=
  (assemble_column_headers opts_wl_long).2.filter (fun j => ! containsOdds j)

/-- C8: for every input row set, column plan, category and name style, the
interactive and Markdown renderers apply the Row Transformer steps 1-8
identically, differing only in the postseason glyph: each transform equals
the shared parametric pipeline instantiated at its own glyph function. -/
theorem render_transforms_agree :
    (∀ column_headers nice_column_headers nresults options reason df,
      rich_render_transform column_headers nice_column_headers nresults options reason df
        = sharedTransform richGlyph column_headers nice_column_headers nresults options reason df)
    ∧ (∀ column_headers nice_column_headers nresults options reason df,
      markdown_render_transform column_headers nice_column_headers nresults options reason df
        = sharedTransform mdGlyph column_headers nice_column_headers nresults options reason df) :=
  ⟨fun _ _ _ _ _ _ => rfl, fun _ _ _ _ _ _ => rfl⟩

/-- C6: season and day values round-trip through display re-indexing: a
0-based stored value V is displayed as V+1 by the plusone re-index step,
and subtracting 1 recovers V. -/
theorem season_day_reindex_roundtrip (V D : Int) :
    ((applyColumn "season" plusone
        ⟨["season", "day"], [[("season", PyVal.int V), ("day", PyVal.int D)]]⟩) >>=
      applyColumn "day" plusone)
      = .ok ⟨["season", "day"], [[("season", PyVal.int (V + 1)), ("day", PyVal.int (D + 1))]]⟩
    ∧ (V + 1) - 1 = V ∧ (D + 1) - 1 = D :=
  ⟨rfl, by omega, by omega⟩

/-- C7: the interactive variant renders the postseason flag as a single
space for False and "Y" for True; the Markdown variant renders it as the
empty string for False and "*" for True, and in the Markdown row loop the
isPostseason key emits no cell of its own while the glyph is concatenated
onto the day cell. -/
theorem postseason_glyph_rendering :
    richGlyph (PyVal.bool false) = " " ∧ richGlyph (PyVal.bool true) = "Y"
    ∧ mdGlyph (PyVal.bool false) = "" ∧ mdGlyph (PyVal.bool true) = "*"
    ∧ (∀ (fullRow : Row) (acc : String) (v : PyVal) (rest : List (String × PyVal)),
        mdRowGo fullRow acc (("isPostseason", v) :: rest) = mdRowGo fullRow acc rest)
    ∧ (∀ (fullRow : Row) (acc : String) (d : String) (rest : List (String × PyVal))
        (g : String), fullRow.lookup "isPostseason" = some (PyVal.str g) →
        mdRowGo fullRow acc (("day", PyVal.str d) :: rest)
          = mdRowGo fullRow (acc ++ d ++ g ++ " | ") rest) := by
  refine ⟨rfl, rfl, rfl, rfl, ?_, ?_⟩
  · intro fullRow acc v rest
    simp [mdRowGo]
  · intro fullRow acc d rest g h
    simp [mdRowGo, h, pyStr]

/-- Witness for C7: the day/glyph concatenation on a concrete row. -/
theorem postseason_glyph_rendering_witness :
    mdRowGo [("day", PyVal.str "5"), ("isPostseason", PyVal.str "*")] "| "
        [("day", PyVal.str "5")]
      = mdRowGo [("day", PyVal.str "5"), ("isPostseason", PyVal.str "*")]
        ("| " ++ "5" ++ "*" ++ " | ") [] :=
  postseason_glyph_rendering.2.2.2.2.2
    [("day", PyVal.str "5"), ("isPostseason", PyVal.str "*")] "| " "5" [] "*" rfl

/-- C10: the postseason glyph decision tests identity with the boolean
False: only the exact False value yields the blank/empty glyph, every
other cell value (None, 0, any string) yields the true glyph. -/
theorem postseason_identity_test :
    richGlyph (PyVal.bool false) = " " ∧ mdGlyph (PyVal.bool false) = ""
    ∧ (∀ c : PyVal, c ≠ PyVal.bool false → richGlyph c = "Y" ∧ mdGlyph c = "*") := by
  refine ⟨rfl, rfl, ?_⟩
  intro c hc
  constructor <;> simp [richGlyph, mdGlyph, hc]

/-- Witness for C10: None, 0 and the empty string all render as the true
glyph. -/
theorem postseason_identity_test_witness :
    richGlyph PyVal.none = "Y" ∧ mdGlyph (PyVal.int 0) = "*"
    ∧ richGlyph (PyVal.str "") = "Y" ∧ mdGlyph (PyVal.str "") = "*" :=
  ⟨(postseason_identity_test.2.2 PyVal.none (by decide)).1,
   (postseason_identity_test.2.2 (PyVal.int 0) (by decide)).2,
   (postseason_identity_test.2.2 (PyVal.str "") (by decide)).1,
   (postseason_identity_test.2.2 (PyVal.str "") (by decide)).2⟩

/-- Counterexample for C4: at odds 0.005 (exactly 1/200, at which the
float product 100*x computed by the source is exact) the underdog
annotation lambda yields "(0%)", not the "(1%)" the claim states: Python 3
round() rounds half to even, not half away from zero. -/
theorem underdog_rounding_half_counterexample :
    addodds (PyVal.str "Moist Talkers") (PyVal.rat (1/200))
        = .ok (PyVal.str "Moist Talkers (0%)")
    ∧ addodds (PyVal.str "Moist Talkers") (PyVal.rat (1/200))
        ≠ .ok (PyVal.str "Moist Talkers (1%)") := by
  have h : pyRound (100 * (1/200 : Rat)) = 0 := by
    unfold pyRound
    norm_num
  have he : addodds (PyVal.str "Moist Talkers") (PyVal.rat (1/200))
      = .ok (PyVal.str "Moist Talkers (0%)") := by
    simp only [addodds, pyRound100, h]
    rfl
  exact ⟨he, by rw [he]; decide⟩

/-- C4 as amended: the underdog annotation rewrites the name field to
name (P%) with P the integer-rounded value of 100 times the odds, but the
rounding is Python 3 round-half-to-even, not half away from zero: odds
0.37 yields "Moist Talkers (37%)" while the boundary case 0.005 yields
0%, exact halves going to the even neighbour; away from halves pyRound is
ordinary nearest-integer rounding (absolute error at most 1/2). -/
theorem underdog_rounding_half_even :
    addodds (PyVal.str "Moist Talkers") (PyVal.rat (37/100))
        = .ok (PyVal.str "Moist Talkers (37%)")
    ∧ addodds (PyVal.str "Moist Talkers") (PyVal.rat (1/200))
        = .ok (PyVal.str "Moist Talkers (0%)")
    ∧ (∀ n : Int, pyRound ((n : Rat) + 1/2) = if n % 2 = 0 then n else n + 1)
    ∧ (∀ q : Rat, |(pyRound q : Rat) - q| ≤ 1/2) := by
  refine ⟨?_, ?_, ?_, ?_⟩
  · have h : pyRound (100 * (37/100 : Rat)) = 37 := by
      unfold pyRound
      norm_num
    simp only [addodds, pyRound100, h]
    rfl
  · have h : pyRound (100 * (1/200 : Rat)) = 0 := by
      unfold pyRound
      norm_num
    simp only [addodds, pyRound100, h]
    rfl
  · intro n
    have h0 : ⌊(n : Rat) + 1/2⌋ = n := by
      rw [Int.floor_int_add]
      norm_num
    unfold pyRound
    rw [h0]
    have h1 : (n : Rat) + 1/2 - (n : Rat) = 1/2 := by ring
    rw [h1]
    norm_num
  · intro q
    have h1 : (⌊q⌋ : Rat) ≤ q := Int.floor_le q
    have h2 : q < (⌊q⌋ : Rat) + 1 := Int.lt_floor_add_one q
    unfold pyRound
    split_ifs with ha hb hc <;> rw [abs_le] <;> constructor <;> push_cast <;> linarith


/-- Counterexample for C1: re-running the transformer with the pruned
column plan of a previous render (so the selected rows carry no odds
columns) fails even for a non-underdog category: the unconditional
cut.drop of the odds labels raises KeyError.  The claim states this case
must not fail. -/
theorem rerun_nonunderdog_fails_counterexample :
    rich_render_transform prunedHeaders prunedNice 10 opts_wl_long "blowout" df0
      = .error "KeyError" := rfl

/-- C1 as amended: re-running the Row Transformer after the column plan
of the View instance has had its odds entries pruned fails deterministically for
every category, not only for underdog: for any category other than
underdog the unconditional drop of the now-absent odds columns raises
KeyError, and for underdog the caught KeyError of the annotation step leads to
sys.exit(1). -/
theorem rerun_after_prune_fails :
    (∀ reason : String, reason ≠ "underdog" →
      rich_render_transform prunedHeaders prunedNice 10 opts_wl_long reason df0
        = .error "KeyError")
    ∧ rich_render_transform prunedHeaders prunedNice 10 opts_wl_long "underdog" df0
        = .error "SystemExit" := by
  constructor
  · intro reason hr
    simp only [rich_render_transform, if_neg hr]
    rfl
  · rfl

/-- Witness for C1: the amended theorem applied at the shutout category. -/
theorem rerun_after_prune_fails_witness :
    rich_render_transform prunedHeaders prunedNice 10 opts_wl_long "shutout" df0
      = .error "KeyError" :=
  rerun_after_prune_fails.1 "shutout" (by decide)

/-- Counterexample for C2: with neither orientation flag set,
assemble_column_headers does not fail; it returns the bare base plan. -/
theorem assemble_no_orientation_returns_plan :
    assemble_column_headers ⟨false, false, false, false, false, false, "long"⟩
      = (["season", "day", "isPostseason"], ["Sea", "Day", "Post"]) := rfl

/-- C2 as amended: assemble_column_headers performs no validation and
never raises.  With neither orientation flag set it returns just the
three base columns; with the win_loss orientation and an unrecognized
name_style it silently omits both team-name keys while still appending
the display labels, returning a plan whose label list is two entries
longer than its key list. -/
theorem assemble_performs_no_validation (options : Options) :
    (options.win_loss = false → options.home_away = false →
      assemble_column_headers options
        = (["season", "day", "isPostseason"], ["Sea", "Day", "Post"]))
    ∧ (options.win_loss = true → options.name_style ∉ NAMESTYLE_CHOICES →
      (assemble_column_headers options).2.length
        = (assemble_column_headers options).1.length + 2) := by
  constructor
  · intro h1 h2
    simp [assemble_column_headers, h1, h2]
  · intro h1 h2
    simp only [NAMESTYLE_CHOICES, List.mem_cons, List.not_mem_nil, or_false, not_or] at h2
    obtain ⟨hl, hs, he⟩ := h2
    simp only [assemble_column_headers, h1, if_true, hl, hs, he, if_false]
    split_ifs <;> simp

/-- Witness for C2: both parts of the amended theorem at concrete
configurations. -/
theorem assemble_performs_no_validation_witness :
    assemble_column_headers ⟨false, false, true, true, true, true, "emoji"⟩
      = (["season", "day", "isPostseason"], ["Sea", "Day", "Post"])
    ∧ (assemble_column_headers ⟨true, false, false, false, false, false, "fancy"⟩).2.length
      = (assemble_column_headers ⟨true, false, false, false, false, false, "fancy"⟩).1.length + 2 :=
  ⟨(assemble_performs_no_validation _).1 rfl rfl,
   (assemble_performs_no_validation _).2 rfl (by decide)⟩

/-- C3, evaluating the code at the failing input: the right-justify branch
of both renderers tests the column keys losingScore and awayScore, but no
plan produced by assemble_column_headers ever contains either key: the
score column is the single combined winningLosingScore (or homeAwayScore)
column, which receives default alignment ("------" in Markdown) for every
name style, contrary to the right justification the claim states.  The emoji
centering branch is unaffected. -/
theorem score_alignment_branch_is_dead :
    (∀ options : Options,
      "losingScore" ∉ (assemble_column_headers options).1
      ∧ "awayScore" ∉ (assemble_column_headers options).1)
    ∧ (∀ options : Options, options.win_loss = true →
      "winningLosingScore" ∈ (assemble_column_headers options).1)
    ∧ (∀ name_style : String,
      richJustify "winningLosingScore" name_style = "default"
      ∧ richJustify "homeAwayScore" name_style = "default"
      ∧ mdSepCell "winningLosingScore" name_style = "------ |"
      ∧ mdSepCell "homeAwayScore" name_style = "------ |") := by
  refine ⟨?_, ?_, ?_⟩
  · intro options
    constructor <;> (simp only [assemble_column_headers]; split_ifs <;> decide)
  · intro options h
    simp only [assemble_column_headers, h]
    split_ifs <;> decide
  · intro name_style
    have h1 : endsInEmoji "winningLosingScore" = false := by decide
    have h2 : endsInEmoji "homeAwayScore" = false := by decide
    refine ⟨?_, ?_, ?_, ?_⟩ <;> simp [richJustify, mdSepCell, h1, h2]

/-- Witness for C3: the winningLosingScore key is planned under win_loss
orientation, and gets default alignment. -/
theorem score_alignment_branch_is_dead_witness :
    "winningLosingScore" ∈ (assemble_column_headers opts_wl_long).1
    ∧ richJustify "winningLosingScore" "long" = "default" :=
  ⟨score_alignment_branch_is_dead.2.1 opts_wl_long rfl,
   (score_alignment_branch_is_dead.2.2 "long").1⟩

/-- C9: the scope decision tests membership of the token "all" in the
season selector (the Python expression testing "all" in options.season),
so any selector containing
"all" anywhere produces the "for all time" phrase and the other season
labels are ignored: the description equals the one for the selector
consisting of "all" alone. -/
theorem season_all_detected_by_membership
    (ALLTEAMS : List String) (reason : String) (season : List String)
    (postseason : Bool) (team : List String) (hmem : "all" ∈ season) :
    table_description ALLTEAMS reason season postseason team
      = table_description ALLTEAMS reason ["all"] postseason team := by
  have hd : desc_rest ALLTEAMS season postseason team
      = desc_rest ALLTEAMS ["all"] postseason team := by
    simp [desc_rest, hmem]
  simp only [table_description, hd]

/-- Witness for C9: the mixed selector with "all" in second position. -/
theorem season_all_detected_by_membership_witness :
    table_description ["Crabs"] "blowout" ["3", "all"] false ["Crabs"]
      = table_description ["Crabs"] "blowout" ["all"] false ["Crabs"] :=
  season_all_detected_by_membership ["Crabs"] "blowout" ["3", "all"] false ["Crabs"]
    (by decide)

/-- Under the hypothesis that every selected team is a roster member, the
emptiness test of the source on set(ALLTEAMS) - set(team) coincides with set
equality of selector and roster. -/
theorem allteams_filter_eq (ALLTEAMS team : List String)
    (hsub : ∀ t ∈ team, t ∈ ALLTEAMS) :
    ((ALLTEAMS.filter (fun t => decide (t ∉ team))).length = 0)
      ↔ team.toFinset = ALLTEAMS.toFinset := by
  rw [List.length_eq_zero, List.filter_eq_nil_iff]
  constructor
  · intro h
    ext x
    simp only [List.mem_toFinset]
    constructor
    · exact fun hx => hsub x hx
    · intro hx
      have hx2 := h x hx
      simpa using hx2
  · intro h t ht
    have hmem : t ∈ team := by
      have := (Finset.ext_iff.mp h t).mpr (List.mem_toFinset.mpr ht)
      exact List.mem_toFinset.mp this
    simp [hmem]

/-- The code-side description tail coincides with the spec-side tail on
the declared input domain: season selectors are either the lone token
"all" or lists of season labels not containing "all" (spec section 4.2),
and team selectors consist of roster members. -/
theorem desc_rest_eq_spec (ALLTEAMS season team : List String) (postseason : Bool)
    (hs : season = ["all"] ∨ "all" ∉ season)
    (ht : ∀ t ∈ team, t ∈ ALLTEAMS) :
    desc_rest ALLTEAMS season postseason team
      = spec_rest ALLTEAMS season postseason team := by
  unfold desc_rest spec_rest
  have h1 : (if "all" ∈ season then "for all time "
      else if season.length = 1 then "for season " ++ String.join season ++ " "
      else "for seasons " ++ String.intercalate ", " season ++ " ")
      = (if season = ["all"] then "for all time "
      else if season.length = 1 then "for season " ++ season.headI ++ " "
      else "for seasons " ++ String.intercalate ", " season ++ " ") := by
    rcases hs with rfl | hna
    · simp
    · have hne : season ≠ ["all"] := by
        rintro rfl
        exact hna (by simp)
      rw [if_neg hna, if_neg hne]
      by_cases hlen : season.length = 1
      · rw [if_pos hlen, if_pos hlen]
        obtain ⟨a, rfl⟩ := List.length_eq_one.mp hlen
        rfl
      · rw [if_neg hlen, if_neg hlen]
  have h3 : (if team.length = 1 then "for team " ++ String.join team
      else if (ALLTEAMS.filter (fun t => decide (t ∉ team))).length = 0 then
        "for all teams"
      else "for teams " ++ String.intercalate ", " team)
      = (if team.length = 1 then "for team " ++ team.headI
      else if team.toFinset = ALLTEAMS.toFinset then "for all teams"
      else "for teams " ++ String.intercalate ", " team) := by
    by_cases hlen : team.length = 1
    · rw [if_pos hlen, if_pos hlen]
      obtain ⟨a, rfl⟩ := List.length_eq_one.mp hlen
      rfl
    · rw [if_neg hlen, if_neg hlen,
        if_congr (allteams_filter_eq ALLTEAMS team ht) rfl rfl]
  rw [h1, h3]

/-- C5: for every recognized category, season selector from the declared
domain (the lone token "all", or season labels without "all"), postseason
flag and team selector drawn from the roster, table_description produces
exactly the spec-side composition: category phrase first, then "for all
time" or the singular/plural season phrase, then "(postseason only)"
exactly when the flag is set, then "for team X" for one team, "for all
teams" when the selected set equals the roster as a set (any order), else
"for teams ...", and the fixed 1-indexing footer. -/
theorem table_description_matches_spec
    (ALLTEAMS : List String) (reason : String) (season : List String)
    (postseason : Bool) (team : List String)
    (hr : reason ∈ REASON2FUNCTION_keys)
    (hs : season = ["all"] ∨ "all" ∉ season)
    (ht : ∀ t ∈ team, t ∈ ALLTEAMS) :
    table_description ALLTEAMS reason season postseason team
      = .ok (table_description_spec ALLTEAMS reason season postseason team) := by
  have hd := desc_rest_eq_spec ALLTEAMS season team postseason hs ht
  simp only [REASON2FUNCTION_keys, List.mem_cons, List.not_mem_nil, or_false] at hr
  rcases hr with rfl | rfl | rfl | rfl | rfl | rfl <;>
    simp [table_description, table_description_spec, hd]

/-- Witness for C5: plural seasons, postseason flag, and a team selector
equal to the roster in reversed order. -/
theorem table_description_matches_spec_witness :
    table_description ["Crabs", "Sunbeams"] "shutout" ["3", "4"] true
        ["Sunbeams", "Crabs"]
      = .ok (table_description_spec ["Crabs", "Sunbeams"] "shutout" ["3", "4"] true
        ["Sunbeams", "Crabs"]) :=
  table_description_matches_spec _ _ _ _ _ (by decide) (by decide) (by decide)
